import Mathlib

/-!
Verification development for the `simply-finance` repository
(a Nuxt/Drizzle/MySQL personal-finance API).

The TypeScript server code is shallowly embedded here:
- Table rows (`server/db/schema.ts`) become Lean structures; monetary
  DECIMAL(10,2) columns are rationals, INT id columns are rationals as well
  (JavaScript passes all numbers through `Number`, so ids flow through the
  handlers as JS numbers; the rows the app itself creates always hold
  integral values), DATETIME columns are integers (millisecond timestamps).
- The database is a record of lists of rows; SQL statements become list
  filters/maps, `ORDER BY ... DESC` becomes an insertion sort by key.
- JavaScript numbers are `Option ℚ` (`none` plays the role of `NaN`),
  so `Number(...)` coercions and truthiness tests are explicit.
- Each HTTP handler becomes a pure function from its inputs and the
  database to a response (an inductive type mirroring the JSON shapes
  the handler can produce) together with the resulting database.
-/

namespace SimplyFinance

/-! ## JavaScript value model -/

/-- A JavaScript number: `none` stands for `NaN`. -/
abbrev JSNum := Option ℚ

/-- Truthiness of a JS number (`0` and `NaN` are falsy). -/
def jsTruthy : JSNum → Bool
  | none => false
  | some q => decide (q ≠ 0)

/-- The JS `a || b` on numbers: the first operand when truthy, else the second. -/
def jsOr (a b : JSNum) : JSNum :=
  if jsTruthy a then a else b

/-- The JS `x || 0` coalescing used on SQL aggregate results (identity on numbers,
since `COALESCE` already turned `NULL` into `0`). -/
def jsOrZero (q : ℚ) : ℚ :=
  if q = 0 then 0 else q

/-- Value of a list of decimal digit characters. -/
def digitsVal (l : List Char) : Nat :=
  l.foldl (fun a c => 10 * a + (c.toNat - 48)) 0

/-- Whether every character of the list is a decimal digit. -/
def allDigits (l : List Char) : Bool :=
  l.all (·.isDigit)

/-- Model of the JS `Number(s)` coercion on strings, for the numeral shapes the
API meets: an optional sign, an integer part, an optional fractional part.
Anything else coerces to `NaN` (`none`); the empty string coerces to `0`. -/
def jsNumber (s : String) : JSNum :=
  let l := s.toList
  if l = [] then some 0 else
  let neg := l.head? = some '-'
  let l' := if neg then l.tail else l
  match l'.splitOn '.' with
  | [ip] =>
      if ip ≠ [] ∧ allDigits ip then
        some (((if neg then -(digitsVal ip : Int) else (digitsVal ip : Int)) : Int) : ℚ)
      else none
  | [ip, fp] =>
      if (ip ≠ [] ∨ fp ≠ []) ∧ allDigits ip ∧ allDigits fp then
        some ((if neg then (-1 : ℚ) else 1) *
          ((digitsVal ip : ℚ) + (digitsVal fp : ℚ) / (10 : ℚ) ^ fp.length))
      else none
  | _ => none

/-! ## Data model (`server/db/schema.ts`) -/

/-- Row of the `users` table. -/
structure User where
  id : ℚ
  email : String
  name : String
  password : String
  createdAt : Int
  updatedAt : Int
  deriving DecidableEq, Repr

/-- The `type` enum of the `categories` table. -/
inductive CatType
  | income
  | expense
  deriving DecidableEq, Repr

/-- Row of the `categories` table (`type` column is `ctype` here). -/
structure Category where
  id : ℚ
  name : String
  ctype : CatType
  userId : ℚ
  createdAt : Int
  deriving DecidableEq, Repr

/-- Row of the `income` or `expenses` table (both have the same columns;
`amount` is DECIMAL(10,2), `date` is the transaction DATETIME). -/
structure MoneyRec where
  id : ℚ
  userId : ℚ
  categoryId : ℚ
  amount : ℚ
  description : Option String
  date : Int
  createdAt : Int
  updatedAt : Int
  deriving DecidableEq, Repr

/-- Row of the `balances` table. -/
structure Balance where
  id : ℚ
  userId : ℚ
  amount : ℚ
  currency : String
  date : Int
  createdAt : Int
  deriving DecidableEq, Repr

/-- The whole database: one list of rows per table. -/
structure DB where
  users : List User
  categories : List Category
  incomeRecs : List MoneyRec
  expenseRecs : List MoneyRec
  balances : List Balance
  deriving DecidableEq, Repr

/-- MySQL stores a value into a DECIMAL(10,2) column by rounding it to two
fractional digits (round half away from zero; for the positive amounts the
handlers store this is round half up, which is Mathlib's `round`). -/
def mysqlRound2 (q : ℚ) : ℚ :=
  ((round (q * 100) : ℤ) : ℚ) / 100

/-! ## ORDER BY ... DESC as an insertion sort -/

/-- Insert `a` into a list kept in non-increasing `key` order. -/
def insertKeyDesc (key : α → Int) (a : α) : List α → List α
  | [] => [a]
  | b :: l => if key a ≤ key b then b :: insertKeyDesc key a l else a :: b :: l

/-- Sort a list into non-increasing `key` order (models `ORDER BY key DESC`). -/
def sortKeyDesc (key : α → Int) : List α → List α
  | [] => []
  | a :: l => insertKeyDesc key a (sortKeyDesc key l)

theorem mem_insertKeyDesc (key : α → Int) (a x : α) (l : List α) :
    x ∈ insertKeyDesc key a l ↔ x = a ∨ x ∈ l := by
  induction l with
  | nil => simp [insertKeyDesc]
  | cons b l ih =>
      by_cases h : key a ≤ key b
      · simp only [insertKeyDesc, if_pos h, List.mem_cons, ih]
        tauto
      · simp only [insertKeyDesc, if_neg h, List.mem_cons]

theorem mem_sortKeyDesc (key : α → Int) (x : α) (l : List α) :
    x ∈ sortKeyDesc key l ↔ x ∈ l := by
  induction l with
  | nil => simp [sortKeyDesc]
  | cons a l ih =>
      simp only [sortKeyDesc, mem_insertKeyDesc, List.mem_cons, ih]

/-! ## Query layer (`server/db/queries.ts`) -/

/-- Lookup of a category row by id (the eager `with: { category: true }` join). -/
def findCategory (db : DB) (cid : ℚ) : Option Category :=
  db.categories.find? (fun c => decide (c.id = cid))

/-- DatabaseQueries.getCategoriesByUser: the user's categories, optionally
restricted to one `type`. -/
def getCategoriesByUser (db : DB) (uid : ℚ) (t : Option CatType) : List Category :=
  db.categories.filter (fun c =>
    decide (c.userId = uid) &&
      (match t with
       | none => true
       | some ty => decide (c.ctype = ty)))

/-- WHERE clause of the by-user money-record queries: owner plus the optional
`gte`/`lte` date bounds. -/
def byUserInRange (uid : ℚ) (s e : Option Int) (r : MoneyRec) : Bool :=
  decide (r.userId = uid) &&
    (match s with | none => true | some d => decide (d ≤ r.date)) &&
    (match e with | none => true | some d => decide (r.date ≤ d))

/-- DatabaseQueries.getIncomeByUser: the user's income rows in the optional
date range, newest first, each with its eagerly loaded category. -/
def getIncomeByUser (db : DB) (uid : ℚ) (s e : Option Int) :
    List (MoneyRec × Option Category) :=
  (sortKeyDesc (·.date) (db.incomeRecs.filter (byUserInRange uid s e))).map
    (fun r => (r, findCategory db r.categoryId))

/-- DatabaseQueries.getExpensesByUser: the user's expense rows in the optional
date range, newest first, each with its eagerly loaded category. -/
def getExpensesByUser (db : DB) (uid : ℚ) (s e : Option Int) :
    List (MoneyRec × Option Category) :=
  (sortKeyDesc (·.date) (db.expenseRecs.filter (byUserInRange uid s e))).map
    (fun r => (r, findCategory db r.categoryId))

/-- DatabaseQueries.getBalancesByUser: the user's balances, optionally
restricted to one currency, newest first. -/
def getBalancesByUser (db : DB) (uid : ℚ) (cur : Option String) : List Balance :=
  sortKeyDesc (·.date)
    (db.balances.filter (fun b =>
      decide (b.userId = uid) &&
        (match cur with | none => true | some c => decide (b.currency = c))))

/-- DatabaseQueries.getLatestBalance: newest balance of the user in the
given currency. -/
def getLatestBalance (db : DB) (uid : ℚ) (cur : String) : Option Balance :=
  (getBalancesByUser db uid (some cur)).head?

/-- One SQL aggregate row `{ total: COALESCE(SUM(amount), 0), count: COUNT(*) }`. -/
structure Agg where
  total : ℚ
  count : Nat
  deriving DecidableEq, Repr

/-- The result shape of `getTransactionSummary`. -/
structure Summary where
  income : Agg
  expenses : Agg
  net : ℚ
  deriving DecidableEq, Repr

/-- SQL `SELECT COALESCE(SUM(amount), 0), COUNT(*)` over the given rows
(DECIMAL summation is exact, and the empty sum coalesces to `0`). -/
def sqlAgg (rows : List MoneyRec) : Agg :=
  { total := (rows.map (·.amount)).sum, count := rows.length }

/-- WHERE clause of `getTransactionSummary`: owner and inclusive date window. -/
def summaryCond (uid : ℚ) (s e : Int) (r : MoneyRec) : Bool :=
  decide (r.userId = uid) && decide (s ≤ r.date) && decide (r.date ≤ e)

/-- Decimal reference model of the transaction summary: the two SQL
aggregates as exact DECIMAL sums, with an exact subtraction for `net`.  This
is NOT the program: the code converts each total with JS `Number(...)` and
subtracts the two binary64 values (`netAmount = incomeAmount -
expenseAmount`), which is modelled faithfully by `summarizeF64` below.  The
reference model exists to be compared against the float pipeline: the totals
of the two models agree observably (every DECIMAL(10,2) value round-trips
through a binary64 to the same decimal text), the nets provably do not. -/
def getTransactionSummary (db : DB) (uid : ℚ) (s e : Int) : Summary :=
  let ti := sqlAgg (db.incomeRecs.filter (summaryCond uid s e))
  let te := sqlAgg (db.expenseRecs.filter (summaryCond uid s e))
  { income := { total := jsOrZero ti.total, count := ti.count }
    expenses := { total := jsOrZero te.total, count := te.count }
    net := jsOrZero ti.total - jsOrZero te.total }

/-! ## IEEE-754 binary64 model

The summary endpoint converts each DECIMAL total with JS `Number(...)` and then
subtracts the two resulting 64-bit floats.  Floats in the normal range are the
rationals of the form `m * 2^(e-52)` with `2^52 ≤ |m| < 2^53`; conversion is
rounding to the nearest such rational.  The rounding is modelled here exactly
for positive normal values (round half up instead of half to even, which only
differs on exact ties, and overflow/subnormals are out of range for
DECIMAL(10,2) data), with a fuel-based base-2 logarithm so that everything
reduces in the kernel. -/

/-- Fuel-based floor of the base-2 logarithm of a natural number. -/
def natLog2Fuel : Nat → Nat → Nat
  | 0, _ => 0
  | fuel + 1, n => if n ≤ 1 then 0 else natLog2Fuel fuel (n / 2) + 1

/-- Floor of the base-2 logarithm of a natural number (0 at 0). -/
def natLog2 (n : Nat) : Nat := natLog2Fuel n n

/-- Ceiling of the base-2 logarithm of a natural number (0 below 2). -/
def natClog2 (n : Nat) : Nat :=
  if n ≤ 1 then 0 else natLog2 (n - 1) + 1

/-- Floor of the base-2 logarithm of a positive rational. -/
def ratFloorLog2 (q : ℚ) : Int :=
  if 1 ≤ q then (natLog2 (⌊q⌋).toNat : Int) else -(natClog2 (⌈q⁻¹⌉).toNat : Int)

/-- Round a rational to the nearest IEEE binary64 value (exact for the
positive normal-range values handled here; ties round up). -/
def f64round (q : ℚ) : ℚ :=
  if q = 0 then 0 else
    ((round (q / 2 ^ (ratFloorLog2 |q| - 52)) : ℤ) : ℚ) * 2 ^ (ratFloorLog2 |q| - 52)

/-- IEEE binary64 subtraction: the exact difference, rounded. -/
def f64sub (a b : ℚ) : ℚ := f64round (a - b)

/-- The transaction-summary pipeline with the float boundary made explicit:
`Number(totalIncome[0]?.total || 0)` turns each DECIMAL sum into the nearest
binary64 value, and `netAmount = incomeAmount - expenseAmount` is a binary64
subtraction of those converted totals. -/
def summarizeF64 (db : DB) (uid : ℚ) (s e : Int) : Summary :=
  let ti := sqlAgg (db.incomeRecs.filter (summaryCond uid s e))
  let te := sqlAgg (db.expenseRecs.filter (summaryCond uid s e))
  let ia := f64round (jsOrZero ti.total)
  let ea := f64round (jsOrZero te.total)
  { income := { total := ia, count := ti.count }
    expenses := { total := ea, count := te.count }
    net := f64sub ia ea }

/-! ## GET /api/users (`server/api/users/index.get.ts`) -/

/-- One element of the GET /api/users response: the selected user columns
(no password) with the eagerly loaded relations. -/
structure UserWithRels where
  id : ℚ
  email : String
  name : String
  createdAt : Int
  updatedAt : Int
  categories : List Category
  balances : List Balance
  deriving DecidableEq, Repr

/-- Responses of GET /api/users. -/
inductive UsersResponse
  | unauthorized
  | ok (data : List UserWithRels)
  deriving DecidableEq, Repr

/-- GET /api/users: after the `!userId` auth gate, `db.query.users.findMany`
over ALL users (no user filter), selecting the public columns and eagerly
loading every user's categories plus each user's single latest balance. -/
def getUsersHandler (ctxUserId : JSNum) (db : DB) : UsersResponse :=
  if ¬ jsTruthy ctxUserId then .unauthorized
  else
    .ok (db.users.map (fun u =>
      { id := u.id, email := u.email, name := u.name,
        createdAt := u.createdAt, updatedAt := u.updatedAt,
        categories := db.categories.filter (fun c => decide (c.userId = u.id)),
        balances :=
          (sortKeyDesc (·.date)
            (db.balances.filter (fun b => decide (b.userId = u.id)))).take 1 }))

/-- Data list of a GET /api/users response (empty on the 401 response). -/
def usersRespData : UsersResponse → List UserWithRels
  | .unauthorized => []
  | .ok l => l

/-! ## GET/POST /api/expenses (list-and-create handler) -/

/-- Responses of the expenses list/create handler. -/
inductive ListResponse
  | unauthorized
  | ok (data : List MoneyRec)
  deriving DecidableEq, Repr

/-- Query parameters of GET /api/expenses after their JS coercions:
`startDate`/`endDate` are `new Date(...)` results (`some none` = present but
invalid, skipped), `categoryId` is the `Number(...)` coercion result of a
present parameter (NaN behaves like an absent filter, so it is `none` here),
`limit`/`offset` are naturals (the handlers' `Number(...)` of numeric text). -/
structure ListQuery where
  startDate : Option (Option Int)
  endDate : Option (Option Int)
  categoryId : Option ℚ
  limit : Option Nat
  offset : Option Nat
  deriving DecidableEq, Repr

/-- The WHERE conditions array of GET /api/expenses: always the owner, plus
the optional valid date bounds and the truthy category filter. -/
def listCond (uid : ℚ) (q : ListQuery) (r : MoneyRec) : Bool :=
  decide (r.userId = uid) &&
    (match q.startDate with
     | some (some d) => decide (d ≤ r.date)
     | _ => true) &&
    (match q.endDate with
     | some (some d) => decide (r.date ≤ d)
     | _ => true) &&
    (match q.categoryId with
     | some c => if c = 0 then true else decide (r.categoryId = c)
     | none => true)

/-- Effective limit of GET /api/expenses:
`query.limit ? Math.min(Number(query.limit), 100) : 50`. -/
def effectiveLimit : Option Nat → Nat
  | none => 50
  | some n => min n 100

/-- GET /api/expenses: auth gate, filter, `ORDER BY date DESC`, `OFFSET`,
`LIMIT` (the `amount: Number(record.amount)` mapping is value-preserving on
DECIMAL(10,2) values, so the rows are returned as stored). -/
def listExpensesHandler (ctxUserId : JSNum) (q : ListQuery) (db : DB) : ListResponse :=
  match ctxUserId with
  | none => .unauthorized
  | some uid =>
      if uid = 0 then .unauthorized
      else
        .ok (((sortKeyDesc (·.date) (db.expenseRecs.filter (listCond uid q))).drop
          (q.offset.getD 0)).take (effectiveLimit q.limit))

/-- Body of POST /api/expenses after JS destructuring and coercions:
`categoryId` is `none` when absent or falsy (the `!categoryId` test),
`amount` is `none` when absent/null/empty and otherwise the `Number(...)`
result (`some none` = NaN), `date` is `none` when absent or falsy and
`some none` when `new Date(...)` is invalid. -/
structure CreateBody where
  categoryId : Option ℚ
  amount : Option JSNum
  description : Option String
  date : Option (Option Int)
  deriving DecidableEq, Repr

/-- Responses of POST /api/expenses. -/
inductive CreateResponse
  | badRequest (msg : String)
  | created (data : MoneyRec)
  | serverError
  deriving DecidableEq, Repr

/-- The `description: description || null` normalization of the create path
(an empty string is falsy, so it becomes NULL). -/
def normDesc : Option String → Option String
  | some s => if s = "" then none else some s
  | none => none

/-- Lookup of a user row by id (the `expenses.user_id → users.id`
foreign-key probe of the storage engine). -/
def findUser (db : DB) (uidq : ℚ) : Option User :=
  db.users.find? (fun u => decide (u.id = uidq))

/-- Largest value of cents a DECIMAL(10,2) column can hold
(precision 10, scale 2: 99999999.99). -/
def decimal10_2MaxCents : Int := 9999999999

/-- POST /api/expenses after the auth gate: eager validation in source order,
then the INSERT, then the re-read of the inserted row.  The INSERT can fail
in the storage engine: a violation of either foreign key — `category_id →
categories.id` or `user_id → users.id` — raises ER_NO_REFERENCED_ROW_2,
which the catch maps to the one 400 message (it cannot tell the two keys
apart), and a value beyond the DECIMAL(10,2) range is an out-of-range error
in strict mode, which falls to the generic 500; in both cases nothing is
stored.  Otherwise `String(numAmount)` lands in the DECIMAL(10,2) column, so
the stored amount is `mysqlRound2` of the validated amount; `description ||
null` turns an empty string into NULL.  `nextId` is the AUTO_INCREMENT id
and `now` the `created_at`/`updated_at` timestamp. -/
def postExpenseHandler (uid : ℚ) (body : Option CreateBody) (nextId : ℚ)
    (now : Int) (db : DB) : CreateResponse × DB :=
  match body with
  | none => (.badRequest "Request body is required", db)
  | some b =>
      match b.categoryId with
      | none => (.badRequest "categoryId is required", db)
      | some cid =>
          if cid = 0 then (.badRequest "categoryId is required", db)
          else
            match b.amount with
            | none => (.badRequest "amount is required", db)
            | some av =>
                match av with
                | none => (.badRequest "amount must be a positive number", db)
                | some q =>
                    if q ≤ 0 then (.badRequest "amount must be a positive number", db)
                    else
                      match b.date with
                      | none => (.badRequest "date is required", db)
                      | some none =>
                          (.badRequest "Invalid date format (ISO 8601 expected)", db)
                      | some (some d) =>
                          if (findCategory db cid).isNone || (findUser db uid).isNone then
                            (.badRequest "Invalid categoryId: Category does not exist", db)
                          else if decimal10_2MaxCents < round (q * 100) then
                            (.serverError, db)
                          else
                            let r : MoneyRec :=
                              { id := nextId, userId := uid, categoryId := cid,
                                amount := mysqlRound2 q,
                                description := normDesc b.description,
                                date := d, createdAt := now, updatedAt := now }
                            (.created r,
                              { db with expenseRecs := db.expenseRecs ++ [r] })

/-! ## PUT/DELETE /api/expenses/:id (`server/api/expenses/[id].ts`) -/

/-- The two methods the record handler implements. -/
inductive Method
  | put
  | delete
  deriving DecidableEq, Repr

/-- Body of PUT /api/expenses/:id after JS coercions.  Each field is `none`
when not provided: `amount` carries the `Number(body.amount)` result
(`some none` = NaN), `description` may be provided as NULL, and `date` is
only looked at when truthy (`some none` = present but `new Date` invalid). -/
structure UpdateBody where
  categoryId : Option ℚ
  amount : Option JSNum
  description : Option (Option String)
  date : Option (Option Int)
  deriving DecidableEq, Repr

/-- The `updateData` object accumulated by the PUT branch. -/
structure UpdateData where
  categoryId : Option ℚ
  amount : Option ℚ
  description : Option (Option String)
  date : Option Int
  deriving DecidableEq, Repr

/-- Whether `Object.keys(updateData).length === 0`. -/
def UpdateData.isEmpty (u : UpdateData) : Bool :=
  u.categoryId.isNone && u.amount.isNone && u.description.isNone && u.date.isNone

/-- Responses of the PUT/DELETE /api/expenses/:id handler. -/
inductive IdResponse
  | invalidId
  | unauthorized
  | notFound
  | badRequest (msg : String)
  | okDelete (id : ℚ)
  | okData (data : MoneyRec)
  | serverError
  deriving DecidableEq, Repr

/-- Validation pass of the PUT branch, building `updateData` in source order
(amount first, then description, then date). -/
def buildUpdate (b : UpdateBody) : Except IdResponse UpdateData :=
  match b.amount with
  | some none => .error (.badRequest "amount must be a positive number")
  | some (some q) =>
      if q ≤ 0 then .error (.badRequest "amount must be a positive number")
      else
        match b.date with
        | some none => .error (.badRequest "Invalid date format")
        | some (some d) =>
            .ok { categoryId := b.categoryId, amount := some q,
                  description := b.description, date := some d }
        | none =>
            .ok { categoryId := b.categoryId, amount := some q,
                  description := b.description, date := none }
  | none =>
      match b.date with
      | some none => .error (.badRequest "Invalid date format")
      | some (some d) =>
          .ok { categoryId := b.categoryId, amount := none,
                description := b.description, date := some d }
      | none =>
          .ok { categoryId := b.categoryId, amount := none,
                description := b.description, date := none }

/-- Apply `updateData` to a row: provided fields replace the old values
(the amount through the DECIMAL(10,2) column, i.e. `mysqlRound2`) and the
`ON UPDATE` timestamp column moves to `now`. -/
def applyUpdate (u : UpdateData) (now : Int) (r : MoneyRec) : MoneyRec :=
  { r with
    categoryId := u.categoryId.getD r.categoryId,
    amount := (u.amount.map mysqlRound2).getD r.amount,
    description := u.description.getD r.description,
    date := u.date.getD r.date,
    updatedAt := now }

/-- The `SELECT ... WHERE id = ? AND user_id = ? LIMIT 1` ownership probe. -/
def findOwned (rows : List MoneyRec) (id uid : ℚ) : Option MoneyRec :=
  (rows.filter (fun r => decide (r.id = id ∧ r.userId = uid))).head?

/-- The UPDATE statement of the PUT branch plus its re-read
`WHERE id = ? LIMIT 1` (the re-read does not filter by user). -/
def expenseIdApply (u : UpdateData) (id uid : ℚ) (now : Int) (db : DB) :
    IdResponse × DB :=
  let db' : DB :=
    { db with expenseRecs :=
        db.expenseRecs.map (fun e =>
          if e.id = id ∧ e.userId = uid then applyUpdate u now e else e) }
  match db'.expenseRecs.find? (fun e => decide (e.id = id)) with
  | some r' => (.okData r', db')
  | none => (.serverError, db')

/-- Core of PUT/DELETE /api/expenses/:id once an id and an acting user id
are in hand: the existence-and-ownership probe (404 on failure, before any
mutation), then DELETE or the PUT pipeline (validation, the no-op shortcut
for an empty body, the UPDATE with its foreign-key check, and the re-read
by id alone). -/
def expenseIdCore (method : Method) (id uid : ℚ) (body : Option UpdateBody)
    (now : Int) (db : DB) : IdResponse × DB :=
  match findOwned db.expenseRecs id uid with
  | none => (.notFound, db)
  | some r =>
      match method with
      | .delete =>
          (.okDelete id,
            { db with expenseRecs :=
                db.expenseRecs.filter (fun e => ¬ (e.id = id ∧ e.userId = uid)) })
      | .put =>
          match body with
          | none => (.badRequest "Request body is required", db)
          | some b =>
              match buildUpdate b with
              | .error resp => (resp, db)
              | .ok u =>
                  if u.isEmpty then (.okData r, db)
                  else
                    match u.categoryId with
                    | some cid =>
                        if (findCategory db cid).isNone then
                          (.badRequest "Invalid categoryId: Category does not exist", db)
                        else expenseIdApply u id uid now db
                    | none => expenseIdApply u id uid now db

/-- The userId extraction of PUT/DELETE /api/expenses/:id:
`event.context.userId || event.context.user?.id ||
 (getHeader(event, 'x-user-id') ? Number(getHeader(event, 'x-user-id')) : 0)`. -/
def extractUserId (ctxUserId ctxUserObjId : JSNum) (header : Option String) : JSNum :=
  jsOr ctxUserId (jsOr ctxUserObjId
    (match header with
     | some s => if s = "" then some 0 else jsNumber s
     | none => some 0))

/-- Full PUT/DELETE /api/expenses/:id handler: route-parameter validation
(`!id || isNaN(id)`), userId extraction with the header fallback, the
`!userId` 401 gate, then `expenseIdCore` with whatever id was extracted. -/
def expenseIdHandler (idParam : Option String) (ctxUserId ctxUserObjId : JSNum)
    (header : Option String) (method : Method) (body : Option UpdateBody)
    (now : Int) (db : DB) : IdResponse × DB :=
  let idNum : JSNum :=
    match idParam with
    | some s => if s = "" then some 0 else jsNumber s
    | none => some 0
  match idNum with
  | none => (.invalidId, db)
  | some i =>
      if i = 0 then (.invalidId, db)
      else
        match extractUserId ctxUserId ctxUserObjId header with
        | none => (.unauthorized, db)
        | some u =>
            if u = 0 then (.unauthorized, db)
            else expenseIdCore method i u body now db

/-! ## Auth handlers (`server/api/auth/*`) -/

/-- Responses of the register and login handlers. -/
inductive AuthResult
  | badRequest (msg : String)
  | conflict
  | unauthorized
  | ok (token : String) (userId : ℚ) (email name : String)
  deriving DecidableEq, Repr

/-- The strings a serialized auth response body contains (error message, or
token plus the public user fields). -/
def authStrings : AuthResult → List String
  | .badRequest m => [m]
  | .conflict => ["User already exists"]
  | .unauthorized => ["Invalid credentials"]
  | .ok t _ e n => [t, e, n]

/-- The register handler's email test, regex `^[^\s@]+@[^\s@]+\.[^\s@]+$`:
the string splits as `local@rest` where `local` is nonempty without
whitespace or `@`, and `rest` contains a `.` that has at least one character
on each side; no whitespace or second `@` anywhere. -/
def emailFormatOk (s : String) : Bool :=
  match s.toList.splitOn '@' with
  | [lo, dom] =>
      lo ≠ [] && (lo ++ dom).all (fun c => ¬ c.isWhitespace) &&
        ((dom.drop 1).dropLast).contains '.'
  | _ => false

/-- Request body of POST /auth/register (fields may be empty strings, which
the handler treats as missing). -/
structure RegisterBody where
  email : String
  password : String
  name : String
  deriving DecidableEq, Repr

/-- POST /auth/register: presence checks, email-format check, password-length
check, the duplicate-email probe (409 Conflict), then the INSERT of the user
with the hashed password and the `{token, user: {id, email, name}}` response.
`hash` is the salted password hash, `token` the signed-token generator,
`nextId` the AUTO_INCREMENT id and `now` the row timestamp. -/
def registerHandler (body : Option RegisterBody) (db : List User)
    (hash : String → String) (token : ℚ → String) (nextId : ℚ) (now : Int) :
    AuthResult × List User :=
  match body with
  | none => (.badRequest "Email, password, and name are required", db)
  | some b =>
      if b.email = "" ∨ b.password = "" ∨ b.name = "" then
        (.badRequest "Email, password, and name are required", db)
      else if ¬ emailFormatOk b.email then
        (.badRequest "Invalid email format", db)
      else if b.password.length < 6 then
        (.badRequest "Password must be at least 6 characters", db)
      else if (db.filter (fun u => decide (u.email = b.email))).length > 0 then
        (.conflict, db)
      else
        (.ok (token nextId) nextId b.email b.name,
          db ++ [{ id := nextId, email := b.email, name := b.name,
                   password := hash b.password, createdAt := now, updatedAt := now }])

/-- Request body of POST /auth/login. -/
structure LoginBody where
  email : String
  password : String
  deriving DecidableEq, Repr

/-- POST /auth/login: presence checks, lookup by email, bcrypt comparison
(`verify submitted-password stored-hash`), and on success the
`{token, user: {id, email, name}}` response.  Both failure modes return the
same generic 401. -/
def loginHandler (body : Option LoginBody) (db : List User)
    (verify : String → String → Bool) (token : ℚ → String) : AuthResult :=
  match body with
  | none => .badRequest "Email and password are required"
  | some b =>
      if b.email = "" ∨ b.password = "" then
        .badRequest "Email and password are required"
      else
        match (db.filter (fun u => decide (u.email = b.email))).head? with
        | none => .unauthorized
        | some u =>
            if ¬ verify b.password u.password then .unauthorized
            else .ok (token u.id) u.id u.email u.name

/-! ## Delete operations (schema referential actions)

The repository has no user-delete or category-delete endpoint under `src/`;
deletion behaviour is carried entirely by the `onDelete` declarations of
`server/db/schema.ts` and is executed by the storage engine. -/

/-- Modelled from the spec: the repository ships no DELETE /users handler;
"Deleting a User cascades: deletes all that user's Categories, MoneyRecords,
BalanceSnapshots", matching the four `onDelete: 'cascade'` references to
`users.id` in `server/db/schema.ts`. -/
def deleteUser (db : DB) (uid : ℚ) : DB :=
  { users := db.users.filter (fun u => decide (u.id ≠ uid)),
    categories := db.categories.filter (fun c => decide (c.userId ≠ uid)),
    incomeRecs := db.incomeRecs.filter (fun r => decide (r.userId ≠ uid)),
    expenseRecs := db.expenseRecs.filter (fun r => decide (r.userId ≠ uid)),
    balances := db.balances.filter (fun b => decide (b.userId ≠ uid)) }

/-- Whether any money record references the category. -/
def categoryReferenced (db : DB) (cid : ℚ) : Bool :=
  db.incomeRecs.any (fun r => decide (r.categoryId = cid)) ||
    db.expenseRecs.any (fun r => decide (r.categoryId = cid))

/-- Modelled from the spec: the repository ships no DELETE /categories
handler; "deleting a Category referenced by an existing MoneyRecord fails and
leaves all data unchanged", matching the `onDelete: 'restrict'` references to
`categories.id` in `server/db/schema.ts`.  `none` is the rejected delete. -/
def deleteCategory (db : DB) (cid : ℚ) : Option DB :=
  if categoryReferenced db cid then none
  else some { db with categories := db.categories.filter (fun c => decide (c.id ≠ cid)) }

/-- The referential-integrity invariant of §3 of the spec: every category,
money record and balance references an existing user, and every money record
references an existing category. -/
def refIntegrity (db : DB) : Prop :=
  (∀ c ∈ db.categories, ∃ u ∈ db.users, u.id = c.userId) ∧
  (∀ r ∈ db.incomeRecs,
    (∃ u ∈ db.users, u.id = r.userId) ∧ ∃ c ∈ db.categories, c.id = r.categoryId) ∧
  (∀ r ∈ db.expenseRecs,
    (∃ u ∈ db.users, u.id = r.userId) ∧ ∃ c ∈ db.categories, c.id = r.categoryId) ∧
  (∀ b ∈ db.balances, ∃ u ∈ db.users, u.id = b.userId)

instance (db : DB) : Decidable (refIntegrity db) := by
  unfold refIntegrity; infer_instance

/-- Ownership consistency: every money record references a category of its
own user.  The API's create path checks only that the category exists, not
that it belongs to the caller, so the stores reachable through the API do not
all satisfy this. -/
def ownershipConsistent (db : DB) : Prop :=
  (∀ r ∈ db.incomeRecs, ∃ c ∈ db.categories, c.id = r.categoryId ∧ c.userId = r.userId) ∧
  (∀ r ∈ db.expenseRecs, ∃ c ∈ db.categories, c.id = r.categoryId ∧ c.userId = r.userId)

instance (db : DB) : Decidable (ownershipConsistent db) := by
  unfold ownershipConsistent; infer_instance

/-! ## General helper lemmas -/

theorem jsOrZero_eq (q : ℚ) : jsOrZero q = q := by
  unfold jsOrZero; split <;> simp [*]

theorem userId_of_byUserInRange {uid : ℚ} {s e : Option Int} {r : MoneyRec}
    (h : byUserInRange uid s e r = true) : r.userId = uid := by
  unfold byUserInRange at h
  simp only [Bool.and_eq_true, decide_eq_true_eq] at h
  exact h.1.1

theorem userId_of_listCond {uid : ℚ} {q : ListQuery} {r : MoneyRec}
    (h : listCond uid q r = true) : r.userId = uid := by
  unfold listCond at h
  simp only [Bool.and_eq_true, decide_eq_true_eq] at h
  exact h.1.1.1

theorem findOwned_eq_none {rows : List MoneyRec} {id uid : ℚ}
    (h : ∀ r ∈ rows, ¬ (r.id = id ∧ r.userId = uid)) :
    findOwned rows id uid = none := by
  unfold findOwned
  rw [List.filter_eq_nil_iff.mpr (by simpa using h)]
  rfl

/-! ## Claim C3 -/

/-- Claim C3: for every authenticated update or delete of an expense by id,
when no record with that id belongs to the acting user — the record is absent
altogether, or belongs to a different user — the handler core performs no
mutation (the database is returned unchanged) and answers with the single 404
NotFound response, which is therefore literally identical in the two failure
cases; the probe runs before any mutation. -/
theorem notFound_no_mutation (method : Method) (id uid : ℚ)
    (body : Option UpdateBody) (now : Int) (db : DB)
    (h : ∀ r ∈ db.expenseRecs, ¬ (r.id = id ∧ r.userId = uid)) :
    expenseIdCore method id uid body now db = (.notFound, db) := by
  unfold expenseIdCore
  rw [findOwned_eq_none h]

/-- An expense row with id 7 owned by user 1. -/
def rec7 : MoneyRec :=
  { id := 7, userId := 1, categoryId := 3, amount := 5,
    description := none, date := 0, createdAt := 0, updatedAt := 0 }

/-- A database whose only expense (id 7) belongs to user 1. -/
def dbOwnedByOther : DB :=
  { users := [], categories := [],
    incomeRecs := [],
    expenseRecs := [rec7],
    balances := [] }

/-- An empty database: the record with id 7 does not exist at all. -/
def dbEmpty : DB :=
  { users := [], categories := [], incomeRecs := [], expenseRecs := [], balances := [] }

/-- Witness for C3: as user 2, PUT on the nonexistent record 7 (empty store)
and on record 7 owned by user 1 both produce the identical NotFound response
with the store untouched. -/
theorem notFound_no_mutation_witness :
    expenseIdCore .put 7 2 none 0 dbEmpty = (.notFound, dbEmpty) ∧
    expenseIdCore .put 7 2 none 0 dbOwnedByOther = (.notFound, dbOwnedByOther) :=
  ⟨notFound_no_mutation .put 7 2 none 0 dbEmpty (by decide),
   notFound_no_mutation .put 7 2 none 0 dbOwnedByOther (by decide)⟩

/-- A store with user 1's income 5000.00 (day 1) and expense 1200.00 (day 5);
user 9 matches nothing.  (Claim C4 is settled after the float model below,
since the program's summary pipeline is the float-boundary one.) -/
def dbSummary : DB :=
  { users := [], categories := [],
    incomeRecs := [{ id := 1, userId := 1, categoryId := 3, amount := 5000,
                     description := none, date := 1, createdAt := 0, updatedAt := 0 }],
    expenseRecs := [{ id := 2, userId := 1, categoryId := 4, amount := 1200,
                      description := none, date := 5, createdAt := 0, updatedAt := 0 }],
    balances := [] }

/-! ## Claim C10 -/

/-- Claim C10: for every authenticated GET /api/expenses
request, the data list holds at most 50 records when no `limit` parameter was
supplied, at most `min limit 100` when one was, hence never more than 100;
and the list is exactly the date-descending matching set with `offset`
records skipped and the effective limit applied. -/
theorem list_pagination (uid : ℚ) (q : ListQuery) (db : DB)
    (data : List MoneyRec)
    (hok : listExpensesHandler (some uid) q db = .ok data) :
    (q.limit = none → data.length ≤ 50) ∧
    (∀ n, q.limit = some n → data.length ≤ min n 100) ∧
    data.length ≤ 100 ∧
    data = ((sortKeyDesc (·.date)
      (db.expenseRecs.filter (listCond uid q))).drop (q.offset.getD 0)).take
        (effectiveLimit q.limit) := by
  unfold listExpensesHandler at hok
  by_cases huid : uid = 0
  · simp [huid] at hok
  · simp only [huid, if_neg, ite_false] at hok
    have hdata : data = ((sortKeyDesc (·.date)
        (db.expenseRecs.filter (listCond uid q))).drop (q.offset.getD 0)).take
          (effectiveLimit q.limit) := by
      cases hok
      rfl
    have hlen : data.length ≤ effectiveLimit q.limit := by
      rw [hdata, List.length_take]
      exact min_le_left _ _
    refine ⟨?_, ?_, ?_, hdata⟩
    · intro h
      simpa [h, effectiveLimit] using hlen
    · intro n h
      simpa [h, effectiveLimit] using hlen
    · rcases hql : q.limit with _ | n <;>
        simp only [hql, effectiveLimit] at hlen <;> omega

/-- The GET /api/expenses query with no parameters at all. -/
def emptyListQuery : ListQuery :=
  { startDate := none, endDate := none, categoryId := none,
    limit := none, offset := none }

/-- Witness for C10: user 1 lists expenses over `dbOwnedByOther` with no
query parameters; the handler returns `[rec7]` and the pagination bounds of
the theorem hold at this input. -/
theorem list_pagination_witness :
    (emptyListQuery.limit = none → ([rec7] : List MoneyRec).length ≤ 50) ∧
    (∀ n, emptyListQuery.limit = some n →
      ([rec7] : List MoneyRec).length ≤ min n 100) ∧
    ([rec7] : List MoneyRec).length ≤ 100 ∧
    [rec7] = ((sortKeyDesc (·.date)
      (dbOwnedByOther.expenseRecs.filter (listCond 1 emptyListQuery))).drop
        (emptyListQuery.offset.getD 0)).take (effectiveLimit emptyListQuery.limit) :=
  list_pagination 1 emptyListQuery dbOwnedByOther [rec7] (by decide)

/-! ## Claim C8 -/

/-- The PUT body that carries only `{description: d}`. -/
def descOnlyBody (d : String) : UpdateBody :=
  { categoryId := none, amount := none, description := some (some d), date := none }

/-- Claim C8 (frame property of partial update): for every expense owned by
the caller, a PUT whose body contains only a description maps that record —
and only records matching the id/owner pair — to a copy whose description is
the new text and whose `updatedAt` is the update timestamp, every other field
(`id`, `userId`, `categoryId`, `amount`, `date`, `createdAt`) kept, leaving
every other record and every other table untouched, and answers with the
re-read row. -/
theorem expenseIdApply_snd (u : UpdateData) (id uid : ℚ) (now : Int) (db : DB) :
    (expenseIdApply u id uid now db).2 =
      { db with expenseRecs := db.expenseRecs.map (fun e =>
          if e.id = id ∧ e.userId = uid then applyUpdate u now e else e) } := by
  simp only [expenseIdApply]
  cases hf : (db.expenseRecs.map (fun e =>
      if e.id = id ∧ e.userId = uid then applyUpdate u now e else e)).find?
      (fun e => decide (e.id = id)) <;> simp [hf]

theorem put_description_frame (db : DB) (id uid : ℚ) (d : String) (now : Int)
    (r : MoneyRec) (hfind : findOwned db.expenseRecs id uid = some r) :
    (expenseIdCore .put id uid (some (descOnlyBody d)) now db).2.expenseRecs =
      db.expenseRecs.map (fun e =>
        if e.id = id ∧ e.userId = uid then
          { e with description := some d, updatedAt := now } else e) ∧
    (expenseIdCore .put id uid (some (descOnlyBody d)) now db).2.users = db.users ∧
    (expenseIdCore .put id uid (some (descOnlyBody d)) now db).2.categories =
      db.categories ∧
    (expenseIdCore .put id uid (some (descOnlyBody d)) now db).2.incomeRecs =
      db.incomeRecs ∧
    (expenseIdCore .put id uid (some (descOnlyBody d)) now db).2.balances =
      db.balances := by
  have key : expenseIdCore .put id uid (some (descOnlyBody d)) now db =
      expenseIdApply { categoryId := none, amount := none,
                       description := some (some d), date := none } id uid now db := by
    unfold expenseIdCore
    rw [hfind]
    rfl
  have happ : (fun e : MoneyRec =>
      if e.id = id ∧ e.userId = uid then
        applyUpdate { categoryId := none, amount := none,
                      description := some (some d), date := none } now e else e) =
      (fun e : MoneyRec => if e.id = id ∧ e.userId = uid then
        { e with description := some d, updatedAt := now } else e) := by
    funext e
    by_cases h : e.id = id ∧ e.userId = uid <;> simp [h, applyUpdate]
  rw [key, expenseIdApply_snd, happ]
  exact ⟨rfl, rfl, rfl, rfl, rfl⟩

/-- Witness for C8: user 1 PUTs `{description: "updated"}` on their expense 7
in `dbOwnedByOther`; only `description`/`updatedAt` move and the other tables
stay. -/
theorem put_description_frame_witness :
    (expenseIdCore .put 7 1 (some (descOnlyBody "updated")) 99 dbOwnedByOther).2.expenseRecs =
      dbOwnedByOther.expenseRecs.map (fun e =>
        if e.id = 7 ∧ e.userId = 1 then
          { e with description := some "updated", updatedAt := 99 } else e) ∧
    (expenseIdCore .put 7 1 (some (descOnlyBody "updated")) 99 dbOwnedByOther).2.users =
      dbOwnedByOther.users ∧
    (expenseIdCore .put 7 1 (some (descOnlyBody "updated")) 99 dbOwnedByOther).2.categories =
      dbOwnedByOther.categories ∧
    (expenseIdCore .put 7 1 (some (descOnlyBody "updated")) 99 dbOwnedByOther).2.incomeRecs =
      dbOwnedByOther.incomeRecs ∧
    (expenseIdCore .put 7 1 (some (descOnlyBody "updated")) 99 dbOwnedByOther).2.balances =
      dbOwnedByOther.balances :=
  put_description_frame dbOwnedByOther 7 1 "updated" 99 rec7 (by decide)

/-! ## Claim C1 -/

/-- Category 10 ("Salary"), owned by user 1. -/
def leakCat : Category :=
  { id := 10, name := "Salary", ctype := .income, userId := 1, createdAt := 0 }

/-- A store with two users, where user 1 owns category 10. -/
def leakDb : DB :=
  { users := [{ id := 1, email := "a@x.com", name := "A", password := "h1",
                createdAt := 0, updatedAt := 0 },
              { id := 2, email := "b@x.com", name := "B", password := "h2",
                createdAt := 0, updatedAt := 0 }],
    categories := [leakCat],
    incomeRecs := [], expenseRecs := [], balances := [] }

/-- Counterexample to C1: GET /api/users does not filter by the authenticated
user.  Authenticated as user 2, the response contains user 1's category 10
nested under user 1's entry, so a record owned by user A is returned to a
request authenticated as user B. -/
theorem users_endpoint_leak_counterexample :
    leakCat ∈ (usersRespData (getUsersHandler (some 2) leakDb)).flatMap (·.categories) ∧
    leakCat.userId = 1 ∧ (1 : ℚ) ≠ 2 := by
  refine ⟨?_, rfl, by norm_num⟩
  decide

/-- Amended C1: every read of the query layer and the expense list endpoint
filters by the user identifier it is given — each returned income, expense,
category and balance row carries that user id — but GET /api/users is the
exception: it returns every user (with nested categories and latest balances)
to any authenticated caller. -/
theorem user_scoped_reads (db : DB) (uid : ℚ) :
    (∀ s e p, p ∈ getExpensesByUser db uid s e → p.1.userId = uid) ∧
    (∀ s e p, p ∈ getIncomeByUser db uid s e → p.1.userId = uid) ∧
    (∀ t c, c ∈ getCategoriesByUser db uid t → c.userId = uid) ∧
    (∀ cur b, b ∈ getBalancesByUser db uid cur → b.userId = uid) ∧
    (∀ cur b, getLatestBalance db uid cur = some b → b.userId = uid) ∧
    (∀ q data r, listExpensesHandler (some uid) q db = .ok data → r ∈ data →
      r.userId = uid) := by
  have hbal : ∀ (cur : Option String) (b : Balance),
      b ∈ getBalancesByUser db uid cur → b.userId = uid := by
    intro cur b hb
    unfold getBalancesByUser at hb
    rw [mem_sortKeyDesc] at hb
    have := (List.mem_filter.mp hb).2
    simp only [Bool.and_eq_true, decide_eq_true_eq] at this
    exact this.1
  refine ⟨?_, ?_, ?_, hbal, ?_, ?_⟩
  · intro s e p hp
    unfold getExpensesByUser at hp
    obtain ⟨r, hr, hpr⟩ := List.mem_map.mp hp
    rw [mem_sortKeyDesc] at hr
    have := userId_of_byUserInRange (List.mem_filter.mp hr).2
    rw [← hpr]
    exact this
  · intro s e p hp
    unfold getIncomeByUser at hp
    obtain ⟨r, hr, hpr⟩ := List.mem_map.mp hp
    rw [mem_sortKeyDesc] at hr
    have := userId_of_byUserInRange (List.mem_filter.mp hr).2
    rw [← hpr]
    exact this
  · intro t c hc
    unfold getCategoriesByUser at hc
    have := (List.mem_filter.mp hc).2
    simp only [Bool.and_eq_true, decide_eq_true_eq] at this
    exact this.1
  · intro cur b hb
    exact hbal (some cur) b (List.mem_of_mem_head? hb)
  · intro q data r hok hr
    unfold listExpensesHandler at hok
    by_cases huid : uid = 0
    · simp [huid] at hok
    · simp only [huid, ite_false] at hok
      cases hok
      have hr' := List.take_subset _ _ hr
      have hr'' := List.drop_subset _ _ hr'
      rw [mem_sortKeyDesc] at hr''
      exact userId_of_listCond (List.mem_filter.mp hr'').2

/-- Witness for C1 (amended): user 1's expense list over `dbOwnedByOther`
returns only rows of user 1, here at the returned row `rec7`. -/
theorem user_scoped_reads_witness : rec7.userId = 1 :=
  (user_scoped_reads dbOwnedByOther 1).2.2.2.2.2
    emptyListQuery [rec7] rec7 (by decide) (by decide)

/-! ## Claim C2 -/

/-- The PUT validation pass only ever fails with a 400 BadRequest. -/
theorem buildUpdate_error_badRequest (b : UpdateBody) (r : IdResponse)
    (h : buildUpdate b = .error r) :
    r = .badRequest "amount must be a positive number" ∨
      r = .badRequest "Invalid date format" := by
  unfold buildUpdate at h
  repeat' split at h
  all_goals simp_all

/-- The UPDATE-and-re-read step answers with the row or a 500, never 401. -/
theorem expenseIdApply_fst_ne_unauthorized (u : UpdateData) (id uid : ℚ)
    (now : Int) (db : DB) :
    (expenseIdApply u id uid now db).1 ≠ .unauthorized := by
  simp only [expenseIdApply]
  cases hf : (db.expenseRecs.map (fun e =>
      if e.id = id ∧ e.userId = uid then applyUpdate u now e else e)).find?
      (fun e => decide (e.id = id)) <;> simp [hf]

/-- The record-handler core never answers 401: its responses are NotFound,
the DELETE/PUT successes, the 400s, or the unreachable 500. -/
theorem expenseIdCore_fst_ne_unauthorized (method : Method) (id uid : ℚ)
    (body : Option UpdateBody) (now : Int) (db : DB) :
    (expenseIdCore method id uid body now db).1 ≠ .unauthorized := by
  unfold expenseIdCore
  repeat' split
  all_goals try exact expenseIdApply_fst_ne_unauthorized _ _ _ _ _
  all_goals try simp_all
  all_goals
    rename_i heq
    rcases buildUpdate_error_badRequest _ _ heq with h | h <;> simp [h]

/-- Counterexample to C2: with no identity in the context and the header
`x-user-id: abc` — a present header — the handler answers 401, because
`Number("abc")` is NaN and therefore falsy; so "401 only when both the
context identity and the header are absent" is false as stated. -/
theorem header_fallback_counterexample :
    (expenseIdHandler (some "7") none none (some "abc") .delete none 0 dbEmpty).1 =
      .unauthorized ∧
    (some "abc" : Option String) ≠ none := by
  exact ⟨by decide, by simp⟩

/-- Amended C2: when the auth middleware attached no identity, the acting
user id is the `Number` coercion of the `x-user-id` header, and the handler
then behaves exactly as if that id had come from a verified bearer token
(first conjunct: the two runs are equal, whatever context/header accompany
the verified id); the request is rejected with 401 exactly when the
context identities are falsy and the header is absent, empty, or coerces to
`0` or NaN — i.e. when the whole extraction chain is falsy (second
conjunct). -/
theorem header_fallback_semantics (idP : Option String) (hA hB : JSNum)
    (hdr : Option String) (s : String) (qv : ℚ) (method : Method)
    (body : Option UpdateBody) (now : Int) (db : DB) :
    (jsNumber s = some qv → qv ≠ 0 → s ≠ "" →
      expenseIdHandler idP none none (some s) method body now db =
        expenseIdHandler idP (some qv) hB hdr method body now db) ∧
    ((expenseIdHandler idP hA hB hdr method body now db).1 = .unauthorized ↔
      (match idP with
       | some ip => if ip = "" then some 0 else jsNumber ip
       | none => some 0) ≠ none ∧
      (match idP with
       | some ip => if ip = "" then some (0 : ℚ) else jsNumber ip
       | none => some 0) ≠ some 0 ∧
      jsTruthy (extractUserId hA hB hdr) = false) := by
  constructor
  · intro hs hqv hne
    unfold expenseIdHandler
    have hextL : extractUserId none none (some s) = some qv := by
      unfold extractUserId jsOr jsTruthy
      simp [hne, hs]
    have hextR : extractUserId (some qv) hB hdr = some qv := by
      unfold extractUserId jsOr jsTruthy
      simp [hqv]
    cases idP with
    | none => rfl
    | some ip =>
        by_cases hip : ip = ""
        · simp [hip]
        · simp only [hip, ite_false]
          cases jsNumber ip with
          | none => rfl
          | some i =>
              by_cases hi : i = 0
              · simp [hi]
              · simp only [hi, ite_false, hextL, hextR]
  · unfold expenseIdHandler
    cases hid : (match idP with
        | some ip => if ip = "" then some (0 : ℚ) else jsNumber ip
        | none => some 0) with
    | none => simp
    | some i =>
        by_cases hi : i = 0
        · simp [hi]
        · cases hext : extractUserId hA hB hdr with
          | none => simp [hi, hext, jsTruthy]
          | some u =>
              by_cases hu : u = 0
              · simp [hi, hu, hext, jsTruthy]
              · have hcore := expenseIdCore_fst_ne_unauthorized method i u body now db
                simp [hi, hu, hext, jsTruthy, hcore]

/-- Witness for C2 (amended): with no context identity and header
`x-user-id: 5`, DELETE of expense 7 behaves exactly like the same request
authenticated as user 5, and the 401 characterization holds at this input. -/
theorem header_fallback_semantics_witness :
    expenseIdHandler (some "7") none none (some "5") .delete none 0 dbEmpty =
      expenseIdHandler (some "7") (some 5) none (some "ignored") .delete none 0 dbEmpty :=
  (header_fallback_semantics (some "7") none none (some "ignored") "5" 5 .delete
    none 0 dbEmpty).1 (by decide) (by norm_num) (by decide)

/-! ## Claim C6 -/

/-- A create body offering amount 0.001 on category 10. -/
def tinyAmountBody : CreateBody :=
  { categoryId := some 10, amount := some (some (1/1000)),
    description := none, date := some (some 5) }

/-- A store holding user 1 and that user's category 10 (`leakCat`), so both
foreign keys of an insert by user 1 against category 10 are satisfiable. -/
def catOnlyDb : DB :=
  { users := [{ id := 1, email := "a@x.com", name := "A", password := "h1",
                createdAt := 0, updatedAt := 0 }],
    categories := [leakCat],
    incomeRecs := [], expenseRecs := [], balances := [] }

/-- Counterexample to C6: in a store where user 1 and category 10 both exist
(so both foreign keys of the insert hold), the amount 0.001 passes the `> 0`
validation, is far below the DECIMAL(10,2) range bound, and the column then
rounds it to 0.00: the create succeeds and the stored and returned amount is
0 — not strictly greater than 0. -/
theorem amount_rounds_to_zero_counterexample :
    postExpenseHandler 1 (some tinyAmountBody) 42 9 catOnlyDb =
      (.created { id := 42, userId := 1, categoryId := 10, amount := 0,
                  description := none, date := 5, createdAt := 9, updatedAt := 9 },
       { catOnlyDb with expenseRecs :=
          [{ id := 42, userId := 1, categoryId := 10, amount := 0,
             description := none, date := 5, createdAt := 9, updatedAt := 9 }] }) ∧
    ¬ (0 : ℚ) > 0 := by
  have hr0 : round ((1:ℚ)/1000 * 100) = 0 := by
    rw [round_eq, show (1:ℚ)/1000 * 100 + 1/2 = 3/5 by norm_num]
    exact Int.floor_eq_iff.mpr (by norm_num)
  have hm : mysqlRound2 (1/1000) = 0 := by
    unfold mysqlRound2
    rw [hr0]
    norm_num
  have hq : ¬ ((1:ℚ)/1000 ≤ 0) := by norm_num
  have hfk : ((findCategory catOnlyDb 10).isNone || (findUser catOnlyDb 1).isNone) =
      false := rfl
  have hrange : ¬ decimal10_2MaxCents < round ((1:ℚ)/1000 * 100) := by
    rw [hr0]
    decide
  refine ⟨?_, by norm_num⟩
  show (if (1:ℚ)/1000 ≤ 0 then _ else _) = _
  rw [if_neg hq]
  show (if ((findCategory catOnlyDb 10).isNone || (findUser catOnlyDb 1).isNone) = true
    then _ else _) = _
  rw [hfk, if_neg (by simp)]
  show (if decimal10_2MaxCents < round ((1:ℚ)/1000 * 100) then _ else _) = _
  rw [if_neg hrange, hm]
  rfl

/-- Amended C6: a create or update whose supplied amount is non-numeric or
not strictly positive fails with a 400 ValidationError (for updates: after
the ownership probe, so a missing/foreign record still yields 404) and writes
nothing; a create whose referenced category and user exist and whose amount
fits the DECIMAL(10,2) range stores the amount rounded to exactly two
fractional digits, which makes the stored and returned amount non-negative —
and strictly positive whenever the supplied amount is at least 0.005, but
0.00 for smaller supplied amounts. -/
theorem amount_validation_and_storage (uid : ℚ) (b : CreateBody) (nid : ℚ)
    (now : Int) (db : DB) (id0 : ℚ) (ub : UpdateBody) (q : ℚ) :
    ((b.amount = some none ∨ (∃ qq, b.amount = some (some qq) ∧ qq ≤ 0)) →
      (∃ m, (postExpenseHandler uid (some b) nid now db).1 = .badRequest m) ∧
        (postExpenseHandler uid (some b) nid now db).2 = db) ∧
    ((ub.amount = some none ∨ (∃ qq, ub.amount = some (some qq) ∧ qq ≤ 0)) →
      (expenseIdCore .put id0 uid (some ub) now db).2 = db ∧
        (∀ r, findOwned db.expenseRecs id0 uid = some r →
          (expenseIdCore .put id0 uid (some ub) now db).1 =
            .badRequest "amount must be a positive number")) ∧
    (∀ cid d dd,
      b = { categoryId := some cid, amount := some (some q),
            description := dd, date := some (some d) } →
      cid ≠ 0 → 0 < q → (findCategory db cid).isSome → (findUser db uid).isSome →
      ¬ decimal10_2MaxCents < round (q * 100) →
      ∃ r, postExpenseHandler uid (some b) nid now db =
          (.created r, { db with expenseRecs := db.expenseRecs ++ [r] }) ∧
        r.amount = mysqlRound2 q ∧
        (∃ k : ℤ, r.amount = (k : ℚ) / 100) ∧
        0 ≤ r.amount ∧
        (1/200 ≤ q → 0 < r.amount)) := by
  refine ⟨?_, ?_, ?_⟩
  · intro ham
    cases hbc : b.categoryId with
    | none => exact ⟨⟨"categoryId is required", by simp [postExpenseHandler, hbc]⟩,
        by simp [postExpenseHandler, hbc]⟩
    | some cid =>
        by_cases hc0 : cid = 0
        · exact ⟨⟨"categoryId is required", by simp [postExpenseHandler, hbc, hc0]⟩,
            by simp [postExpenseHandler, hbc, hc0]⟩
        · rcases ham with ham | ⟨qq, ham, hqq⟩
          · exact ⟨⟨"amount must be a positive number",
              by simp [postExpenseHandler, hbc, hc0, ham]⟩,
              by simp [postExpenseHandler, hbc, hc0, ham]⟩
          · exact ⟨⟨"amount must be a positive number",
              by simp [postExpenseHandler, hbc, hc0, ham, hqq]⟩,
              by simp [postExpenseHandler, hbc, hc0, ham, hqq]⟩
  · intro ham
    cases hfo : findOwned db.expenseRecs id0 uid with
    | none =>
        exact ⟨by simp [expenseIdCore, hfo], fun r hr => by simp at hr⟩
    | some r0 =>
        have hbu : buildUpdate ub = .error (.badRequest "amount must be a positive number") := by
          rcases ham with ham | ⟨qq, ham, hqq⟩
          · simp [buildUpdate, ham]
          · simp [buildUpdate, ham, hqq]
        exact ⟨by simp [expenseIdCore, hfo, hbu],
          fun r hr => by simp [expenseIdCore, hfo, hbu]⟩
  · intro cid d dd hb hc0 hq hcat husr hrange
    have hnle : ¬ q ≤ 0 := not_le.mpr hq
    have hfk : ((findCategory db cid).isNone || (findUser db uid).isNone) = false := by
      rcases Option.isSome_iff_exists.mp hcat with ⟨c, hc⟩
      rcases Option.isSome_iff_exists.mp husr with ⟨u, hu⟩
      simp [hc, hu]
    refine ⟨{ id := nid, userId := uid, categoryId := cid, amount := mysqlRound2 q,
              description := normDesc dd,
              date := d, createdAt := now, updatedAt := now },
      by simp [postExpenseHandler, hb, hc0, hnle, hfk, hrange], rfl, ?_, ?_, ?_⟩
    · exact ⟨round (q * 100), rfl⟩
    · unfold mysqlRound2
      have h0 : (0 : ℤ) ≤ round (q * 100) := by
        rw [round_eq]
        apply Int.floor_nonneg.mpr
        nlinarith
      positivity
    · intro hhalf
      unfold mysqlRound2
      have h1 : (1 : ℤ) ≤ round (q * 100) := by
        rw [round_eq]
        apply Int.le_floor.mpr
        push_cast
        nlinarith
      have : (1 : ℚ) ≤ (round (q * 100) : ℤ) := by exact_mod_cast h1
      linarith

/-- A create body whose amount is −5. -/
def negAmountBody : CreateBody :=
  { categoryId := some 10, amount := some (some (-5)),
    description := none, date := none }

/-- An update body whose amount coerced to NaN. -/
def nanUpdateBody : UpdateBody :=
  { categoryId := none, amount := some none, description := none, date := none }

/-- A valid create body: category 10, amount 2, date 5. -/
def okAmountBody : CreateBody :=
  { categoryId := some 10, amount := some (some 2),
    description := none, date := some (some 5) }

/-- Witness for C6 (amended): a create with amount −5 is a 400 that stores
nothing; an update offering NaN leaves the store unchanged; a valid create
with amount 2 appends a row whose stored amount is the two-digit rounding of
2, non-negative and positive. -/
theorem amount_validation_and_storage_witness :
    ((∃ m, (postExpenseHandler 1 (some negAmountBody) 42 9 catOnlyDb).1 = .badRequest m) ∧
      (postExpenseHandler 1 (some negAmountBody) 42 9 catOnlyDb).2 = catOnlyDb) ∧
    ((expenseIdCore .put 7 2 (some nanUpdateBody) 0 dbEmpty).2 = dbEmpty) ∧
    (∃ r, postExpenseHandler 1 (some okAmountBody) 42 9 catOnlyDb =
        (.created r, { catOnlyDb with expenseRecs := catOnlyDb.expenseRecs ++ [r] }) ∧
      r.amount = mysqlRound2 2 ∧ (∃ k : ℤ, r.amount = (k : ℚ) / 100) ∧
      0 ≤ r.amount ∧ (1/200 ≤ (2:ℚ) → 0 < r.amount)) :=
  ⟨(amount_validation_and_storage 1 negAmountBody 42 9 catOnlyDb 0 nanUpdateBody 2).1
      (Or.inr ⟨-5, rfl, by norm_num⟩),
   ((amount_validation_and_storage 2 negAmountBody 0 0 dbEmpty 7 nanUpdateBody 2).2.1
      (Or.inl rfl)).1,
   (amount_validation_and_storage 1 okAmountBody 42 9 catOnlyDb 0 nanUpdateBody 2).2.2
      10 5 none rfl (by norm_num) (by norm_num) rfl rfl
      (by rw [show (2:ℚ) * 100 = ((200:ℤ) : ℚ) by norm_num, round_intCast]; decide)⟩

/-! ## Claim C7 -/

/-- Claim C7: (i) a registration attempt that passes input validation but
re-uses an existing email fails with 409 Conflict and creates no user; (ii)
the register response is a function of the id, email, name and token alone —
running the handler with any two password-hash functions yields the same
response, so the stored hash cannot occur in it; (iii) the login response
body contains only the token and the public user fields, never the stored
password hash (stated for any hash that does not coincide with one of those
public strings). -/
theorem register_conflict_and_no_hash (db : List User) (b : RegisterBody)
    (h1 h2 : String → String) (tok : ℚ → String) (nid : ℚ) (now : Int)
    (lb : LoginBody) (verify : String → String → Bool) (w : User) :
    (b.email ≠ "" → b.password ≠ "" → b.name ≠ "" → emailFormatOk b.email →
      ¬ b.password.length < 6 → (∃ u ∈ db, u.email = b.email) →
      registerHandler (some b) db h1 tok nid now = (.conflict, db)) ∧
    ((registerHandler (some b) db h1 tok nid now).1 =
      (registerHandler (some b) db h2 tok nid now).1) ∧
    ((db.filter (fun u => decide (u.email = lb.email))).head? = some w →
      w.password ≠ tok w.id → w.password ≠ w.email → w.password ≠ w.name →
      w.password ≠ "Invalid credentials" →
      w.password ≠ "Email and password are required" →
      w.password ∉ authStrings (loginHandler (some lb) db verify tok)) := by
  refine ⟨?_, ?_, ?_⟩
  · intro he hp hn hfmt hlen ⟨u, hu, hue⟩
    have hdup : (db.filter (fun u => decide (u.email = b.email))).length > 0 := by
      have hmem : u ∈ db.filter (fun u => decide (u.email = b.email)) :=
        List.mem_filter.mpr ⟨hu, by simp [hue]⟩
      exact List.length_pos.mpr (List.ne_nil_of_mem hmem)
    simp [registerHandler, he, hp, hn, hfmt, hlen, hdup]
  · unfold registerHandler
    repeat' split
    all_goals rfl
  · intro hw htok hem hnm hmsg hreq
    simp only [loginHandler]
    split
    · simp [authStrings, hreq]
    · rw [hw]
      cases hv : verify lb.password w.password
      · simp [hv, authStrings, hmsg]
      · simp [hv, authStrings, htok, hem, hnm]

/-- Witness for C7: registering "a@x.com" again over `leakDb` (which already
holds that email) yields Conflict and leaves the user table unchanged; the
register response over the empty store is hash-independent; and user 1's
login response over `leakDb` does not contain the stored hash "h1". -/
theorem register_conflict_and_no_hash_witness :
    (registerHandler (some { email := "a@x.com", password := "secret1", name := "Z" })
        leakDb.users (fun s => s ++ "#") (fun _ => "tok") 3 0 = (.conflict, leakDb.users)) ∧
    "h1" ∉ authStrings (loginHandler (some { email := "a@x.com", password := "secret1" })
        leakDb.users (fun _ _ => true) (fun _ => "tok")) :=
  ⟨(register_conflict_and_no_hash leakDb.users
      { email := "a@x.com", password := "secret1", name := "Z" }
      (fun s => s ++ "#") (fun s => s ++ "!") (fun _ => "tok") 3 0
      { email := "a@x.com", password := "secret1" } (fun _ _ => true)
      { id := 1, email := "a@x.com", name := "A", password := "h1",
        createdAt := 0, updatedAt := 0 }).1
      (by decide) (by decide) (by decide) (by decide) (by decide)
      ⟨{ id := 1, email := "a@x.com", name := "A", password := "h1",
         createdAt := 0, updatedAt := 0 }, by decide, rfl⟩,
   (register_conflict_and_no_hash leakDb.users
      { email := "a@x.com", password := "secret1", name := "Z" }
      (fun s => s ++ "#") (fun s => s ++ "!") (fun _ => "tok") 3 0
      { email := "a@x.com", password := "secret1" } (fun _ _ => true)
      { id := 1, email := "a@x.com", name := "A", password := "h1",
        createdAt := 0, updatedAt := 0 }).2.2
      (by decide) (by decide) (by decide) (by decide) (by decide) (by decide)⟩

/-! ## Claim C9 -/

/-- A store satisfying referential integrity in which user 2's expense 20
references user 1's category 10 — reachable through the API, whose create
path checks only that the category exists, not that the caller owns it. -/
def crossRefDb : DB :=
  { users := [{ id := 1, email := "a@x.com", name := "A", password := "h",
                createdAt := 0, updatedAt := 0 },
              { id := 2, email := "b@x.com", name := "B", password := "h",
                createdAt := 0, updatedAt := 0 }],
    categories := [leakCat],
    incomeRecs := [],
    expenseRecs := [{ id := 20, userId := 2, categoryId := 10, amount := 5,
                      description := none, date := 0, createdAt := 0, updatedAt := 0 }],
    balances := [] }

/-- Counterexample to C9: from the integrity-satisfying store `crossRefDb`,
cascade-deleting user 1 removes category 10 but keeps user 2's expense that
references it, so after the delete a MoneyRecord references a nonexistent
Category — the claimed invariant does not always hold under the stated
delete rules. -/
theorem cascade_breaks_integrity_counterexample :
    refIntegrity crossRefDb ∧ ¬ refIntegrity (deleteUser crossRefDb 1) := by
  constructor
  · decide
  · decide

/-- Amended C9: deleting a User removes all and only that user's categories,
money records and balance snapshots; deleting a Category referenced by any
money record fails (and by definition changes nothing); and the referential
invariants are preserved by both operations provided every money record
references a category of its own user — a condition the API's create path
does not enforce, and without which a user-delete can leave another user's
record referencing a deleted category. -/
theorem delete_rules_amended (db : DB) (uid cid : ℚ) :
    (∀ u, u ∈ (deleteUser db uid).users ↔ u ∈ db.users ∧ u.id ≠ uid) ∧
    (∀ c, c ∈ (deleteUser db uid).categories ↔ c ∈ db.categories ∧ c.userId ≠ uid) ∧
    (∀ r, r ∈ (deleteUser db uid).incomeRecs ↔ r ∈ db.incomeRecs ∧ r.userId ≠ uid) ∧
    (∀ r, r ∈ (deleteUser db uid).expenseRecs ↔ r ∈ db.expenseRecs ∧ r.userId ≠ uid) ∧
    (∀ b, b ∈ (deleteUser db uid).balances ↔ b ∈ db.balances ∧ b.userId ≠ uid) ∧
    (categoryReferenced db cid = true → deleteCategory db cid = none) ∧
    (ownershipConsistent db → refIntegrity db → refIntegrity (deleteUser db uid)) ∧
    (∀ db', deleteCategory db cid = some db' → refIntegrity db → refIntegrity db') := by
  refine ⟨?_, ?_, ?_, ?_, ?_, ?_, ?_, ?_⟩
  · intro u; simp [deleteUser, List.mem_filter]
  · intro c; simp [deleteUser, List.mem_filter]
  · intro r; simp [deleteUser, List.mem_filter]
  · intro r; simp [deleteUser, List.mem_filter]
  · intro b; simp [deleteUser, List.mem_filter]
  · intro href; simp [deleteCategory, href]
  · intro hoc hri
    obtain ⟨hoinc, hoexp⟩ := hoc
    obtain ⟨hcats, hinc, hexp, hbal⟩ := hri
    simp only [deleteUser]
    refine ⟨?_, ?_, ?_, ?_⟩
    · intro c hc
      rw [List.mem_filter] at hc
      obtain ⟨hcm, hcu⟩ := hc
      rw [decide_eq_true_eq] at hcu
      obtain ⟨u, hu, hui⟩ := hcats c hcm
      exact ⟨u, List.mem_filter.mpr ⟨hu, by simp [hui, hcu]⟩, hui⟩
    · intro r hr
      rw [List.mem_filter] at hr
      obtain ⟨hrm, hru⟩ := hr
      rw [decide_eq_true_eq] at hru
      obtain ⟨⟨u, hu, hui⟩, -⟩ := hinc r hrm
      obtain ⟨c, hc, hcid, hcu⟩ := hoinc r hrm
      exact ⟨⟨u, List.mem_filter.mpr ⟨hu, by simp [hui, hru]⟩, hui⟩,
        ⟨c, List.mem_filter.mpr ⟨hc, by simp [hcu, hru]⟩, hcid⟩⟩
    · intro r hr
      rw [List.mem_filter] at hr
      obtain ⟨hrm, hru⟩ := hr
      rw [decide_eq_true_eq] at hru
      obtain ⟨⟨u, hu, hui⟩, -⟩ := hexp r hrm
      obtain ⟨c, hc, hcid, hcu⟩ := hoexp r hrm
      exact ⟨⟨u, List.mem_filter.mpr ⟨hu, by simp [hui, hru]⟩, hui⟩,
        ⟨c, List.mem_filter.mpr ⟨hc, by simp [hcu, hru]⟩, hcid⟩⟩
    · intro b hb
      rw [List.mem_filter] at hb
      obtain ⟨hbm, hbu⟩ := hb
      rw [decide_eq_true_eq] at hbu
      obtain ⟨u, hu, hui⟩ := hbal b hbm
      exact ⟨u, List.mem_filter.mpr ⟨hu, by simp [hui, hbu]⟩, hui⟩
  · intro db' hdel hri
    obtain ⟨hcats, hinc, hexp, hbal⟩ := hri
    by_cases href : categoryReferenced db cid = true
    · simp [deleteCategory, href] at hdel
    · have hnoinc : ∀ r ∈ db.incomeRecs, r.categoryId ≠ cid := by
        intro r hr hcontra
        apply href
        unfold categoryReferenced
        simp only [Bool.or_eq_true, List.any_eq_true, decide_eq_true_eq]
        exact Or.inl ⟨r, hr, hcontra⟩
      have hnoexp : ∀ r ∈ db.expenseRecs, r.categoryId ≠ cid := by
        intro r hr hcontra
        apply href
        unfold categoryReferenced
        simp only [Bool.or_eq_true, List.any_eq_true, decide_eq_true_eq]
        exact Or.inr ⟨r, hr, hcontra⟩
      rw [deleteCategory, if_neg href] at hdel
      cases hdel
      refine ⟨?_, ?_, ?_, hbal⟩
      · intro c hc
        exact hcats c (List.mem_filter.mp hc).1
      · intro r hr
        obtain ⟨hu, c, hc, hcid⟩ := hinc r hr
        exact ⟨hu, c, List.mem_filter.mpr
          ⟨hc, by simp [hcid, hnoinc r hr]⟩, hcid⟩
      · intro r hr
        obtain ⟨hu, c, hc, hcid⟩ := hexp r hr
        exact ⟨hu, c, List.mem_filter.mpr
          ⟨hc, by simp [hcid, hnoexp r hr]⟩, hcid⟩

/-- Witness for C9 (amended): on `leakDb` (users 1 and 2, category 10 of
user 1, no money records) deleting user 1 keeps integrity, and the
restricted category delete refuses once a record references category 10. -/
theorem delete_rules_amended_witness :
    (refIntegrity (deleteUser leakDb 1)) ∧
    (deleteCategory crossRefDb 10 = none) :=
  ⟨(delete_rules_amended leakDb 1 10).2.2.2.2.2.2.1 (by decide) (by decide),
   (delete_rules_amended crossRefDb 1 10).2.2.2.2.2.1 (by decide)⟩

/-! ## Claim C5 -/

theorem f64round_of_3_tenths :
    f64round ((3:ℚ)/10) = 5404319552844595 / 2 ^ 54 := by
  rw [f64round, if_neg (by norm_num), show |(3:ℚ)/10| = 3/10 by norm_num]
  rw [show ratFloorLog2 ((3:ℚ)/10) = -2 by
    rw [ratFloorLog2, if_neg (by norm_num)]
    rw [show (((3:ℚ)/10)⁻¹) = 10/3 by norm_num]
    rw [show ⌈(10:ℚ)/3⌉ = 4 from Int.ceil_eq_iff.mpr (by norm_num)]
    decide]
  rw [show ((-2 : Int) - 52) = -54 by decide, round_eq]
  rw [show (3:ℚ)/10/2^(-54 : ℤ) + 1/2 = 54043195528445957/10 by
    rw [zpow_neg, zpow_ofNat]
    norm_num]
  rw [show ⌊(54043195528445957:ℚ)/10⌋ = 5404319552844595 from
    Int.floor_eq_iff.mpr (by norm_num)]
  rw [zpow_neg, zpow_ofNat]
  norm_num

theorem f64round_of_1_tenth :
    f64round ((1:ℚ)/10) = 3602879701896397 / 2 ^ 55 := by
  rw [f64round, if_neg (by norm_num), show |(1:ℚ)/10| = 1/10 by norm_num]
  rw [show ratFloorLog2 ((1:ℚ)/10) = -4 by
    rw [ratFloorLog2, if_neg (by norm_num)]
    rw [show (((1:ℚ)/10)⁻¹) = 10 by norm_num]
    rw [show ⌈(10:ℚ)⌉ = 10 from Int.ceil_eq_iff.mpr (by norm_num)]
    decide]
  rw [show ((-4 : Int) - 52) = -56 by decide, round_eq]
  rw [show (1:ℚ)/10/2^(-56 : ℤ) + 1/2 = 72057594037927941/10 by
    rw [zpow_neg, zpow_ofNat]
    norm_num]
  rw [show ⌊(72057594037927941:ℚ)/10⌋ = 7205759403792794 from
    Int.floor_eq_iff.mpr (by norm_num)]
  rw [zpow_neg, zpow_ofNat]
  norm_num

theorem f64round_of_1_fifth :
    f64round ((1:ℚ)/5) = 7205759403792794 / 2 ^ 55 := by
  rw [f64round, if_neg (by norm_num), show |(1:ℚ)/5| = 1/5 by norm_num]
  rw [show ratFloorLog2 ((1:ℚ)/5) = -3 by
    rw [ratFloorLog2, if_neg (by norm_num)]
    rw [show (((1:ℚ)/5)⁻¹) = 5 by norm_num]
    rw [show ⌈(5:ℚ)⌉ = 5 from Int.ceil_eq_iff.mpr (by norm_num)]
    decide]
  rw [show ((-3 : Int) - 52) = -55 by decide, round_eq]
  rw [show (1:ℚ)/5/2^(-55 : ℤ) + 1/2 = 72057594037927941/10 by
    rw [zpow_neg, zpow_ofNat]
    norm_num]
  rw [show ⌊(72057594037927941:ℚ)/10⌋ = 7205759403792794 from
    Int.floor_eq_iff.mpr (by norm_num)]
  rw [zpow_neg, zpow_ofNat]
  norm_num

theorem f64sub_of_converted_tenths :
    f64sub ((5404319552844595:ℚ) / 2 ^ 54) ((3602879701896397:ℚ) / 2 ^ 55) =
      7205759403792793 / 2 ^ 55 := by
  rw [f64sub, show (5404319552844595:ℚ)/2^54 - 3602879701896397/2^55 =
    7205759403792793/2^55 by norm_num]
  rw [f64round, if_neg (by norm_num),
    show |(7205759403792793:ℚ)/2^55| = 7205759403792793/2^55 by
      rw [abs_of_nonneg] ; norm_num]
  rw [show ratFloorLog2 ((7205759403792793:ℚ)/2^55) = -3 by
    rw [ratFloorLog2, if_neg (by norm_num)]
    rw [show (((7205759403792793:ℚ)/2^55)⁻¹) = 36028797018963968/7205759403792793 by
      norm_num]
    rw [show ⌈(36028797018963968:ℚ)/7205759403792793⌉ = 6 from
      Int.ceil_eq_iff.mpr (by norm_num)]
    decide]
  rw [show ((-3 : Int) - 52) = -55 by decide, round_eq]
  rw [show (7205759403792793:ℚ)/2^55/2^(-55 : ℤ) + 1/2 = 14411518807585587/2 by
    rw [zpow_neg, zpow_ofNat]
    norm_num]
  rw [show ⌊(14411518807585587:ℚ)/2⌋ = 7205759403792793 from
    Int.floor_eq_iff.mpr (by norm_num)]
  rw [zpow_neg, zpow_ofNat]
  norm_num

/-- Amended C5: the income total and the expense total are each computed with
decimal-safe database aggregation — what crosses the boundary is one float
conversion of the exactly summed DECIMAL values, with no float arithmetic
inside the sum — but the net is then computed as a binary64 subtraction of
the two converted totals, i.e. binary floating point is used in the net
arithmetic itself, not only in a final display conversion. -/
theorem summary_float_boundary (db : DB) (uid : ℚ) (s e : Int) :
    (summarizeF64 db uid s e).income.total =
      f64round (jsOrZero (((db.incomeRecs.filter
        (fun r => decide (r.userId = uid ∧ s ≤ r.date ∧ r.date ≤ e))).map
          (·.amount)).sum)) ∧
    (summarizeF64 db uid s e).expenses.total =
      f64round (jsOrZero (((db.expenseRecs.filter
        (fun r => decide (r.userId = uid ∧ s ≤ r.date ∧ r.date ≤ e))).map
          (·.amount)).sum)) ∧
    (summarizeF64 db uid s e).income.count = (getTransactionSummary db uid s e).income.count ∧
    (summarizeF64 db uid s e).expenses.count = (getTransactionSummary db uid s e).expenses.count ∧
    (summarizeF64 db uid s e).net =
      f64sub ((summarizeF64 db uid s e).income.total)
        ((summarizeF64 db uid s e).expenses.total) := by
  have hcond : ∀ r : MoneyRec,
      summaryCond uid s e r = decide (r.userId = uid ∧ s ≤ r.date ∧ r.date ≤ e) := by
    intro r
    unfold summaryCond
    by_cases h1 : r.userId = uid <;> by_cases h2 : s ≤ r.date <;>
      by_cases h3 : r.date ≤ e <;> simp [h1, h2, h3]
  have hfe : ∀ l : List MoneyRec,
      l.filter (summaryCond uid s e) =
        l.filter (fun r => decide (r.userId = uid ∧ s ≤ r.date ∧ r.date ≤ e)) := by
    intro l
    exact List.filter_congr (fun r _ => hcond r)
  refine ⟨?_, ?_, rfl, rfl, rfl⟩
  · simp [summarizeF64, sqlAgg, hfe]
  · simp [summarizeF64, sqlAgg, hfe]

/-- A store for the float counterexample: user 1 has one income of 0.30 and
one expense of 0.10, both inside the window [0, 10]. -/
def floatDb : DB :=
  { users := [], categories := [],
    incomeRecs := [{ id := 1, userId := 1, categoryId := 3, amount := 3/10,
                     description := none, date := 5, createdAt := 0, updatedAt := 0 }],
    expenseRecs := [{ id := 2, userId := 1, categoryId := 4, amount := 1/10,
                      description := none, date := 6, createdAt := 0, updatedAt := 0 }],
    balances := [] }

/-- Evaluation of the float-boundary net on `floatDb`: the binary64
subtraction of the converted totals 0.30 and 0.10 gives exactly
7205759403792793/2^55 (the double printed as 0.19999999999999998). -/
theorem floatDb_net_eval :
    (summarizeF64 floatDb 1 0 10).net = (7205759403792793:ℚ) / 2 ^ 55 := by
  have hfi : floatDb.incomeRecs.filter (summaryCond 1 0 10) = floatDb.incomeRecs := rfl
  have hfx : floatDb.expenseRecs.filter (summaryCond 1 0 10) = floatDb.expenseRecs := rfl
  simp only [summarizeF64, sqlAgg, hfi, hfx]
  show f64sub (f64round (jsOrZero (List.sum [(3:ℚ)/10])))
    (f64round (jsOrZero (List.sum [(1:ℚ)/10]))) = _
  rw [jsOrZero_eq, jsOrZero_eq]
  rw [show List.sum [(3:ℚ)/10] = 3/10 by simp,
      show List.sum [(1:ℚ)/10] = 1/10 by simp]
  rw [f64round_of_3_tenths, f64round_of_1_tenth, f64sub_of_converted_tenths]

/-- Counterexample to C5: with income total 0.30 and expense total 0.10, the
net the code computes (a binary64 subtraction of the two converted totals)
is neither the decimal-safe net 0.20 nor the single boundary conversion of
that decimal net — the intermediate float arithmetic is observable, so
"binary floating point only at the final display conversion" is false. -/
theorem summary_float_drift_counterexample :
    (summarizeF64 floatDb 1 0 10).net ≠ (getTransactionSummary floatDb 1 0 10).net ∧
    (summarizeF64 floatDb 1 0 10).net ≠
      f64round ((getTransactionSummary floatDb 1 0 10).net) := by
  have hfi : floatDb.incomeRecs.filter (summaryCond 1 0 10) = floatDb.incomeRecs := rfl
  have hfx : floatDb.expenseRecs.filter (summaryCond 1 0 10) = floatDb.expenseRecs := rfl
  have hSnet : (getTransactionSummary floatDb 1 0 10).net = 1/5 := by
    simp only [getTransactionSummary, sqlAgg, hfi, hfx]
    show jsOrZero (List.sum (List.map _ floatDb.incomeRecs)) -
      jsOrZero (List.sum (List.map _ floatDb.expenseRecs)) = 1/5
    rw [jsOrZero_eq, jsOrZero_eq]
    show List.sum [(3:ℚ)/10] - List.sum [(1:ℚ)/10] = 1/5
    simp
    norm_num
  rw [hSnet, floatDb_net_eval, f64round_of_1_fifth]
  constructor <;> norm_num

/-! ## Claim C4 -/

/-- Counterexample to C4: on `floatDb` the matching sums are 0.30 (income)
and 0.10 (expenses), but the net the program returns is not their
difference: the code computes `Number(ti) - Number(te)` in binary64, so the
net drifts off the decimal subtraction the claim states. -/
theorem summarize_net_not_sum_difference_counterexample :
    ((floatDb.incomeRecs.filter (summaryCond 1 0 10)).map (·.amount)).sum = 3/10 ∧
    ((floatDb.expenseRecs.filter (summaryCond 1 0 10)).map (·.amount)).sum = 1/10 ∧
    (summarizeF64 floatDb 1 0 10).net ≠ (3:ℚ)/10 - 1/10 := by
  have hfi : floatDb.incomeRecs.filter (summaryCond 1 0 10) = floatDb.incomeRecs := rfl
  have hfx : floatDb.expenseRecs.filter (summaryCond 1 0 10) = floatDb.expenseRecs := rfl
  refine ⟨?_, ?_, ?_⟩
  · rw [hfi]
    show List.sum [(3:ℚ)/10] = 3/10
    simp
  · rw [hfx]
    show List.sum [(1:ℚ)/10] = 1/10
    simp
  · rw [floatDb_net_eval]
    norm_num

/-- Amended C4: for every user and every date window the summary is
`{income: {total, count}, expenses: {total, count}, net}`; each count is the
number of the user's matching records (date inclusively within the window)
and each total is the single binary64 conversion of their exactly-summed
DECIMAL amounts (so observably the sum); `net`, however, is the binary64
difference of the two converted totals, which can differ from the difference
of the sums; with zero matching records the summary is exactly
`{income: {0,0}, expenses: {0,0}, net: 0}`, never null/undefined/NaN. -/
theorem summarize_float_spec (db : DB) (uid : ℚ) (s e : Int) :
    (summarizeF64 db uid s e).income.count =
      (db.incomeRecs.filter
        (fun r => decide (r.userId = uid ∧ s ≤ r.date ∧ r.date ≤ e))).length ∧
    (summarizeF64 db uid s e).expenses.count =
      (db.expenseRecs.filter
        (fun r => decide (r.userId = uid ∧ s ≤ r.date ∧ r.date ≤ e))).length ∧
    (summarizeF64 db uid s e).income.total =
      f64round (jsOrZero (((db.incomeRecs.filter
        (fun r => decide (r.userId = uid ∧ s ≤ r.date ∧ r.date ≤ e))).map
          (·.amount)).sum)) ∧
    (summarizeF64 db uid s e).expenses.total =
      f64round (jsOrZero (((db.expenseRecs.filter
        (fun r => decide (r.userId = uid ∧ s ≤ r.date ∧ r.date ≤ e))).map
          (·.amount)).sum)) ∧
    (summarizeF64 db uid s e).net =
      f64sub ((summarizeF64 db uid s e).income.total)
        ((summarizeF64 db uid s e).expenses.total) ∧
    ((db.incomeRecs.filter
        (fun r => decide (r.userId = uid ∧ s ≤ r.date ∧ r.date ≤ e)) = []) →
     (db.expenseRecs.filter
        (fun r => decide (r.userId = uid ∧ s ≤ r.date ∧ r.date ≤ e)) = []) →
     summarizeF64 db uid s e =
       { income := ⟨0, 0⟩, expenses := ⟨0, 0⟩, net := 0 }) := by
  have hcond : ∀ r : MoneyRec,
      summaryCond uid s e r = decide (r.userId = uid ∧ s ≤ r.date ∧ r.date ≤ e) := by
    intro r
    unfold summaryCond
    by_cases h1 : r.userId = uid <;> by_cases h2 : s ≤ r.date <;>
      by_cases h3 : r.date ≤ e <;> simp [h1, h2, h3]
  have hfe : ∀ l : List MoneyRec,
      l.filter (summaryCond uid s e) =
        l.filter (fun r => decide (r.userId = uid ∧ s ≤ r.date ∧ r.date ≤ e)) := by
    intro l
    exact List.filter_congr (fun r _ => hcond r)
  refine ⟨?_, ?_, ?_, ?_, rfl, ?_⟩
  · simp [summarizeF64, sqlAgg, hfe]
  · simp [summarizeF64, sqlAgg, hfe]
  · simp [summarizeF64, sqlAgg, hfe]
  · simp [summarizeF64, sqlAgg, hfe]
  · intro hi hx
    have hi' : db.incomeRecs.filter (summaryCond uid s e) = [] := (hfe _).trans hi
    have hx' : db.expenseRecs.filter (summaryCond uid s e) = [] := (hfe _).trans hx
    simp [summarizeF64, sqlAgg, hi', hx', jsOrZero, f64sub, f64round]

/-- Witness for C4 (amended): user 9 matches no record of `dbSummary` in the
window [0, 31], and the returned summary is exactly the all-zero one. -/
theorem summarize_float_spec_witness :
    summarizeF64 dbSummary 9 0 31 =
      { income := ⟨0, 0⟩, expenses := ⟨0, 0⟩, net := 0 } :=
  (summarize_float_spec dbSummary 9 0 31).2.2.2.2.2 (by decide) (by decide)

end SimplyFinance
